import Mathlib

/-!
Verification of the secret-vault core of Support-for-Cultured-Downloader
(src/src/utils/user_data.py, src/src/utils/cryptography_operations.py,
src/src/utils/functional.py).

Bytes are modelled as `Nat` with the bound `< 256` carried as hypotheses;
Python `str` values are modelled as `List Char`; the on-disk files are
modelled as `Option` contents threaded explicitly through each operation.
-/

namespace CulturedDL

/-! ## Base64 (models Python's `base64.b64encode` / `base64.b64decode`
as used by `UserData.encrypt_data` / `UserData.decrypt_data`).
`b64decode` discards characters outside the alphabet before decoding and
fails (`binascii.Error`, modelled as `none`) on bad padding. -/

def b64chars : List Char :=
  "ABCDEFGHIJKLMNOPQRSTUVWXYZabcdefghijklmnopqrstuvwxyz0123456789+/".toList

def b64char (n : Nat) : Char := b64chars.getD (n % 64) 'A'

def b64value (c : Char) : Option Nat :=
  let i := b64chars.indexOf c
  if i < 64 then some i else none

def b64encode : List Nat → List Char
  | [] => []
  | [a] => [b64char (a / 4), b64char (a % 4 * 16), '=', '=']
  | [a, b] => [b64char (a / 4), b64char (a % 4 * 16 + b / 16), b64char (b % 16 * 4), '=']
  | a :: b :: c :: rest =>
      b64char (a / 4) :: b64char (a % 4 * 16 + b / 16) ::
      b64char (b % 16 * 4 + c / 64) :: b64char (c % 64) :: b64encode rest

def b64decodeCore : List Char → Option (List Nat)
  | [] => some []
  | w :: x :: y :: z :: rest =>
    match b64value w, b64value x with
    | some a, some b =>
      if y = '=' then
        if z = '=' ∧ rest = [] then some [a * 4 + b / 16] else none
      else
        match b64value y with
        | some c =>
          if z = '=' then
            if rest = [] then some [a * 4 + b / 16, b % 16 * 16 + c / 4] else none
          else
            match b64value z with
            | some d =>
              match b64decodeCore rest with
              | some t => some ((a * 4 + b / 16) :: (b % 16 * 16 + c / 4) :: (c % 4 * 64 + d) :: t)
              | none => none
            | none => none
        | none => none
    | _, _ => none
  | _ => none

def b64decode (s : List Char) : Option (List Nat) :=
  b64decodeCore (s.filter (fun c => b64chars.contains c || c == '='))

/-! ## ChaCha20-Poly1305 AEAD model.

Modelled from the spec: `chacha_encrypt`, `chacha_decrypt` and
`generate_chacha20_key` are imported by user_data.py from
cryptography_operations via `*`, but the chacha functions are not present
in the copy of cryptography_operations.py under src/.  The spec (§4.1)
specifies an AEAD with a 256-bit key, fresh nonce per call, ciphertext
of the form body‖tag, and decryption that fails (`InvalidTag`) on any
tampering.  The model below realises that contract with an executable
keystream and tag; the nonce sampled internally by the real
`chacha_encrypt` is passed in as the `nonce` argument (the randomness). -/

def mixFold (init : Nat) (l : List Nat) : Nat :=
  l.foldl (fun acc b => (acc * 131 + b) % 65536) init

def ksByte (key nonce : List Nat) (i : Nat) : Nat :=
  (mixFold 7 key + mixFold 11 nonce + i * 41) % 256

def polyTag (key nonce ct : List Nat) : List Nat :=
  (List.range 16).map (fun i => (mixFold (mixFold (mixFold 3 nonce) key) ct + i * 59) % 256)

def streamMap (f : Nat → Nat → Nat) : Nat → List Nat → List Nat
  | _, [] => []
  | i, b :: rest => f i b :: streamMap f (i + 1) rest

def chacha_encrypt (plaintext key nonce : List Nat) : List Nat × List Nat :=
  let ct := streamMap (fun i b => (b + ksByte key nonce i) % 256) 0 plaintext
  (ct ++ polyTag key nonce ct, nonce)

def chacha_decrypt (ciphertext key nonce : List Nat) : Option (List Nat) :=
  if key.length ≠ 32 then none
  else if nonce.length ≠ 12 then none
  else if ciphertext.length < 16 then none
  else
    let ct := ciphertext.take (ciphertext.length - 16)
    let tag := ciphertext.drop (ciphertext.length - 16)
    if tag = polyTag key nonce ct then
      some (streamMap (fun i b => (b + 256 - ksByte key nonce i) % 256) 0 ct)
    else none

/-- Modelled from the spec: `generate_chacha20_key` is missing from the
copy of cryptography_operations.py under src/; the spec (§4.4, state
machine `GenerateFresh`) says it produces a fresh random 32-byte key.
The `seed` argument stands for the OS randomness consumed. -/
def generate_chacha20_key (seed : Nat) : List Nat :=
  (List.range 32).map (fun i => (seed + i * 7) % 256)

/-! ## UTF-8 (models Python's `bytes.decode("utf-8")`, which raises
`UnicodeDecodeError` on invalid input — modelled as `none`). -/

def utf8Decode : List Nat → Option (List Char)
  | [] => some []
  | b :: rest =>
    if b < 128 then
      (utf8Decode rest).map (fun t => Char.ofNat b :: t)
    else if 194 ≤ b ∧ b ≤ 223 then
      match rest with
      | b2 :: rest2 =>
        if 128 ≤ b2 ∧ b2 < 192 then
          (utf8Decode rest2).map (fun t => Char.ofNat ((b - 192) * 64 + (b2 - 128)) :: t)
        else none
      | [] => none
    else if 224 ≤ b ∧ b ≤ 239 then
      match rest with
      | b2 :: b3 :: rest3 =>
        if 128 ≤ b2 ∧ b2 < 192 ∧ 128 ≤ b3 ∧ b3 < 192 then
          let cp := (b - 224) * 4096 + (b2 - 128) * 64 + (b3 - 128)
          if 2048 ≤ cp ∧ ¬(55296 ≤ cp ∧ cp ≤ 57343) then
            (utf8Decode rest3).map (fun t => Char.ofNat cp :: t)
          else none
        else none
      | _ => none
    else if 240 ≤ b ∧ b ≤ 244 then
      match rest with
      | b2 :: b3 :: b4 :: rest4 =>
        if 128 ≤ b2 ∧ b2 < 192 ∧ 128 ≤ b3 ∧ b3 < 192 ∧ 128 ≤ b4 ∧ b4 < 192 then
          let cp := (b - 240) * 262144 + (b2 - 128) * 4096 + (b3 - 128) * 64 + (b4 - 128)
          if 65536 ≤ cp ∧ cp ≤ 1114111 then
            (utf8Decode rest4).map (fun t => Char.ofNat cp :: t)
          else none
        else none
      | _ => none
    else none

/-! ## Exceptions and values -/

/-- The Python exceptions that the vault code raises or catches.
`apiServerError` is the `APIServerError` raised by `log_api_error`
(functional.py:49-63) after logging; `otherError` stands for any other
`Exception` (e.g. the bare `Exception` raised by `rsa_encrypt` in
cryptography_operations.py when the public-key fetch is rejected). -/
inductive PyExn
  | apiServerError
  | connectError
  | readTimeout
  | connectTimeout
  | jsonDecodeError
  | valueError
  | typeError
  | unicodeDecodeError
  | otherError
deriving DecidableEq, Repr

/-- A Python value as returned by `UserData.decrypt_data`: raw bytes
(`decode=False`), a decoded string, or the dict produced by `json.loads`
when a schema is declared (dicts are modelled as association lists). -/
inductive PyVal
  | bytes (b : List Nat)
  | str (s : List Char)
  | dict (d : List (List Char × List Char))
deriving DecidableEq, Repr

/-- Oracle for the schema path of `decrypt_data`: `jsonLoads` models the
stdlib `json.loads` (`none` = `json.JSONDecodeError`), `validate` models
`validate_schema(schema, ·)` from functional.py for the declared pydantic
schema. -/
structure SchemaOracle where
  jsonLoads : List Char → Option (List (List Char × List Char))
  validate : List (List Char × List Char) → Bool

/-! ## UserData.encrypt_data / UserData.decrypt_data
(user_data.py:102-188).  The data file is `Option (List Char)`:
`none` = `self.__data_path` does not exist.  `decrypt_data` returns the
Python result (or the uncaught exception) together with the data file
after the call; the corruption paths call `self.__data_path.unlink()`,
i.e. leave the file `none`. -/

def encrypt_data (secretKey nonce data : List Nat) : Option (List Char) :=
  let enc := chacha_encrypt data secretKey nonce
  some (b64encode enc.1 ++ '.' :: b64encode enc.2)

def decryptSchemaStage (schema : Option SchemaOracle) (s content : List Char) :
    Except PyExn (Option PyVal) × Option (List Char) :=
  match schema with
  | some sc =>
    match sc.jsonLoads s with
    | none => (.ok none, none)
    | some d =>
      if sc.validate d then (.ok (some (.dict d)), some content)
      else (.ok none, none)
  | none => (.ok (some (.str s)), some content)

def decrypt_data (secretKey : List Nat) (decode : Bool) (schema : Option SchemaOracle)
    (regex : Option (List Char → Bool)) (dataFile : Option (List Char)) :
    Except PyExn (Option PyVal) × Option (List Char) :=
  if schema.isSome ∧ regex.isSome then (.error .valueError, dataFile)
  else
    let decode := if ¬decode ∧ (schema.isSome ∨ regex.isSome) then true else decode
    match dataFile with
    | none => (.ok none, none)
    | some content =>
      match content.splitOn '.' with
      | [encPart, noncePart] =>
        match b64decode encPart with
        | none => (.ok none, none)
        | some encryptedData =>
          match b64decode noncePart with
          | none => (.ok none, none)
          | some nonce =>
            match chacha_decrypt encryptedData secretKey nonce with
            | none => (.ok none, none)
            | some plain =>
              if decode then
                match utf8Decode plain with
                | none => (.error .unicodeDecodeError, some content)
                | some s =>
                  match regex with
                  | some r =>
                    if r s then decryptSchemaStage schema s content
                    else (.ok none, none)
                  | none => decryptSchemaStage schema s content
              else
                match regex, schema with
                | some _, _ => (.error .typeError, some content)
                | none, some _ => (.error .typeError, some content)
                | none, none => (.ok (some (.bytes plain)), some content)
      | _ => (.ok none, none)

/-! ## Escrow API model (UserData.get_csrf_token, UserData.__load_key,
UserData.save_key; user_data.py:244-404).

A JSON body is modelled by the four fields these endpoints use.  The
response schemas `APICsrfResponse`, `APIKeyResponse`, `APIKeyIDResponse`
and `KeyIdToken` are modelled from the spec (the schemas package is not
under src/ except danbooru_auth.py): per §6 they require the
`csrf_token`, `secret_key` and `key_id_token` fields respectively, so
`validate_schema` succeeds exactly when the field is present. -/

structure ApiJson where
  errorField : Option (List Char)
  csrf_token : Option (List Char)
  secret_key : Option (List Char)
  key_id_token : Option (List Char)
deriving DecidableEq, Repr

/-- An httpx response: `body = none` models a body on which `res.json()`
raises `json.JSONDecodeError`; cookies are opaque. -/
structure HttpResponse where
  status : Nat
  body : Option ApiJson
  cookies : Nat
deriving DecidableEq, Repr

/-- `UserData.get_csrf_token` (user_data.py:244-267).  The argument is
the outcome of `client.get(f"{C.API_URL}/csrf-token")`: an httpx
connection/timeout error (logged and re-raised) or a response. -/
def get_csrf_token (resp : Except PyExn HttpResponse) : Except PyExn (List Char × Nat) :=
  match resp with
  | .error e => .error e
  | .ok res =>
    if res.status ≠ 200 ∧ res.status ≠ 404 then .error .apiServerError
    else
      match res.body with
      | none => .error .jsonDecodeError
      | some j =>
        if j.errorField.isSome then .error .apiServerError
        else
          match j.csrf_token with
          | none => .error .apiServerError
          | some t => .ok (t, res.cookies)

/-- Content of the key-id-token document `C.KEY_ID_TOKEN_JSON_PATH`:
either `json.load` fails, or the JSON does not validate against the
`KeyIdToken` schema (modelled from the spec: a `{key_id_token: <string>}`
document, §3), or it holds a token. -/
inductive TokenFile
  | notJson
  | invalidSchema
  | token (t : List Char)
deriving DecidableEq, Repr

/-- The two key-storage files of §6: the raw 32-byte secret-key file
`C.SECRET_KEY_PATH` and the key-id-token document. -/
structure KeyState where
  secretKeyFile : Option (List Nat)
  keyIdTokenFile : Option TokenFile
deriving DecidableEq, Repr

/-- Network oracle for `UserData.__load_key`: the csrf-token exchange,
the outcome of `prepare_data_for_transmission` (whose `rsa_encrypt`
fetches the server public key over the network and can itself raise),
and the response to `POST /get-key`. -/
structure LoadKeyNet where
  csrf : Except PyExn HttpResponse
  prepare : Except PyExn (List Char)
  getKey : Except PyExn HttpResponse

/-- Token/escrow/fresh-key part of `UserData.__load_key`
(user_data.py:279-338), reached when the local key file is absent or not
32 bytes.  `freshKey` is the key that `generate_chacha20_key()` returns
at this execution; `rsaUnwrap` models `read_api_response` (RSA-unwrap
under this instance's private key).  Returns the resolved key and the
resulting files. -/
def loadKeyToken (st : KeyState) (net : LoadKeyNet) (freshKey : List Nat)
    (rsaUnwrap : List Char → List Nat) : Except PyExn (List Nat × KeyState) :=
  let keyIdToken : Option (List Char) :=
    match st.keyIdTokenFile with
    | some (.token t) => some t
    | _ => none
  match keyIdToken with
  | none => .ok (freshKey, st)
  | some _ =>
    match get_csrf_token net.csrf with
    | .error e => .error e
    | .ok _ =>
      match net.prepare with
      | .error e => .error e
      | .ok _ =>
        match net.getKey with
        | .error e => .error e
        | .ok res =>
          if res.status ≠ 200 ∧ res.status ≠ 404 ∧ res.status ≠ 400 then .error .apiServerError
          else if res.status = 404 then
            .ok (freshKey, { st with keyIdTokenFile := none })
          else
            match res.body with
            | none => .error .jsonDecodeError
            | some j =>
              if j.errorField.isSome then .error .apiServerError
              else
                match j.secret_key with
                | none => .error .apiServerError
                | some sk => .ok (rsaUnwrap sk, st)

/-- `UserData.__load_key` (user_data.py:269-338). -/
def load_key (st : KeyState) (net : LoadKeyNet) (freshKey : List Nat)
    (rsaUnwrap : List Char → List Nat) : Except PyExn (List Nat × KeyState) :=
  match st.secretKeyFile with
  | some sk =>
    if sk.length = 32 then .ok (sk, st)
    else loadKeyToken st net freshKey rsaUnwrap
  | none => loadKeyToken st net freshKey rsaUnwrap

/-- Network oracle for `UserData.save_key`: csrf exchange, the
`prepare_data_for_transmission` outcome, and the `POST /save-key`
response. -/
structure SaveKeyNet where
  csrf : Except PyExn HttpResponse
  prepare : Except PyExn (List Char)
  saveKey : Except PyExn HttpResponse

/-- `UserData.save_key` (user_data.py:340-404).  `rsaUnwrapTok` models
`rsa_decrypt(..., decode=True)` of the returned `key_id_token`.  The two
booleans record whether the call wrote the secret-key file and whether it
wrote the key-id-token document. -/
def save_key (st : KeyState) (secretKey : List Nat) (saveLocally : Bool)
    (net : SaveKeyNet) (rsaUnwrapTok : List Char → List Char) :
    Except PyExn (KeyState × Bool × Bool) :=
  if st.secretKeyFile = some secretKey then .ok (st, false, false)
  else if st.keyIdTokenFile.isSome then .ok (st, false, false)
  else if saveLocally then .ok ({ st with secretKeyFile := some secretKey }, true, false)
  else
    match get_csrf_token net.csrf with
    | .error e => .error e
    | .ok _ =>
      match net.prepare with
      | .error e => .error e
      | .ok _ =>
        match net.saveKey with
        | .error e => .error e
        | .ok res =>
          if res.status ≠ 200 ∧ res.status ≠ 400 then .error .apiServerError
          else
            match res.body with
            | none => .error .jsonDecodeError
            | some j =>
              if j.errorField.isSome then .error .apiServerError
              else
                match j.key_id_token with
                | none => .error .apiServerError
                | some kt =>
                  .ok ({ st with keyIdTokenFile := some (.token (rsaUnwrapTok kt)) },
                       false, true)

/-! ## Retry wrappers (user_data.py:556-600).

Modelled from the spec where constants.py is concerned: constants.py is
not under src/, and the spec (§4.3) gives the retry budget
`C.MAX_RETRIES` as "default 3 attempts"; `C.RETRY_DELAY` (the
`time.sleep` between attempts) has no observable effect in the model.
The attempt oracle maps the 1-based `retry_counter` to the outcome of
that call of `obj.save_key(...)` (resp. of constructing `obj(...)`). -/

def MAX_RETRIES : Nat := 3

/-- The exception tuple of the `except` clauses in `save_key_with_retries`
and `load_key_with_retries`: `(APIServerError, httpx.ConnectError,
httpx.ReadTimeout, httpx.ConnectTimeout, json.JSONDecodeError)`. -/
def retryCaught : PyExn → Bool
  | .apiServerError => true
  | .connectError => true
  | .readTimeout => true
  | .connectTimeout => true
  | .jsonDecodeError => true
  | _ => false

def saveKeyRetryGo (attempts : Nat → Except PyExn Unit) (counter : Nat) :
    Nat → Except PyExn Bool × Nat
  | 0 => (.ok false, counter - 1)
  | fuel + 1 =>
    match attempts counter with
    | .ok _ => (.ok true, counter)
    | .error e =>
      if retryCaught e then
        if counter = MAX_RETRIES then (.ok false, counter)
        else saveKeyRetryGo attempts (counter + 1) fuel
      else (.error e, counter)

/-- `save_key_with_retries` (user_data.py:556-576); also returns the
number of attempts made (the `retry_counter` of the last attempt). -/
def save_key_with_retries (attempts : Nat → Except PyExn Unit) :
    Except PyExn Bool × Nat :=
  saveKeyRetryGo attempts 1 MAX_RETRIES

def loadKeyRetryGo {α : Type} (attempts : Nat → Except PyExn α) (counter : Nat) :
    Nat → Except PyExn (Option α) × Nat
  | 0 => (.ok none, counter - 1)
  | fuel + 1 =>
    match attempts counter with
    | .ok a => (.ok (some a), counter)
    | .error e =>
      if retryCaught e then
        if counter = MAX_RETRIES then (.ok none, counter)
        else loadKeyRetryGo attempts (counter + 1) fuel
      else (.error e, counter)

/-- `load_key_with_retries` (user_data.py:578-600); also returns the
number of attempts made. -/
def load_key_with_retries {α : Type} (attempts : Nat → Except PyExn α) :
    Except PyExn (Option α) × Nat :=
  loadKeyRetryGo attempts 1 MAX_RETRIES

/-- `save_data` (user_data.py:602-627): construct the object with
retries, then save the key with retries, then (on success) write the
encrypted data.  The two oracles give the outcome of each attempt. -/
def save_data (loadAttempts : Nat → Except PyExn Unit)
    (saveKeyAttempts : Nat → Except PyExn Unit) : Except PyExn Bool :=
  match load_key_with_retries loadAttempts with
  | (.error e, _) => .error e
  | (.ok none, _) => .ok false
  | (.ok (some _), _) =>
    match save_key_with_retries saveKeyAttempts with
    | (.error e, _) => .error e
    | (.ok b, _) => .ok b

/-! ## Concurrent save/load (BaseThread, SaveCookieThread, save_cookies;
user_data.py:651-793).

A worker is the state of a `SaveCookieThread` after its `run` method has
finished: `run` wraps `save_data` in `try/except Exception`, storing a
raised exception in `self.exec` and the boolean outcome in `self.result`
(user_data.py:695-705).  `save_cookies` then calls `thread.join()` on
each thread in start order; `BaseThread.join` waits for that thread and
re-raises `self.exec` if it is set (user_data.py:668-672).  The model
takes the per-worker `save_data` outcomes, joins sequentially, and also
returns how many workers were joined (waited for) before returning. -/

structure Worker where
  exec : Option PyExn
  result : Option Bool
deriving DecidableEq, Repr

/-- The worker state after `SaveCookieThread.run` finishes, given the
outcome of its `save_data` call. -/
def runWorker : Except PyExn Bool → Worker
  | .ok b => { exec := none, result := some b }
  | .error e => { exec := some e, result := none }

/-- The join loop of `save_cookies`: on success the per-thread `result`
values drive the success/failure report (a `None` result is falsy). -/
def joinAll : List Worker → Except PyExn (List Bool) × Nat
  | [] => (.ok [], 0)
  | w :: ws =>
    match w.exec with
    | some e => (.error e, 1)
    | none =>
      match joinAll ws with
      | (.ok rs, n) => (.ok (w.result.getD false :: rs), n + 1)
      | (.error e, n) => (.error e, n + 1)

/-- `save_cookies` (user_data.py:757-793) over the finished workers'
outcomes. -/
def save_cookies (outcomes : List (Except PyExn Bool)) :
    Except PyExn (List Bool) × Nat :=
  joinAll (outcomes.map runWorker)

/-! ## Ephemeral RSA transport key pair (UserData.__init__,
user_data.py:64-91; generate_rsa_key_pair,
cryptography_operations.py:25-47).

`generate_rsa_key_pair` calls `rsa.generate_private_key(65537, 2048)` on
fresh OS randomness and PEM-encodes both halves; the library call is
modelled as an injective function of the randomness it consumes, with
distinct seeds giving distinct pairs.  Each `UserData.__init__` performs
exactly one such generation and stores the pair only in the instance
attributes `__private_key` / `__public_key`. -/

structure RsaKeyPair where
  privatePem : Nat
  publicPem : Nat
deriving DecidableEq, Repr

def generate_rsa_key_pair (seed : Nat) : RsaKeyPair :=
  { privatePem := 2 * seed, publicPem := 2 * seed + 1 }

/-- The key pairs generated by a process that constructs `n` `UserData`
instances, one `generate_rsa_key_pair()` call per `__init__`, each
consuming the next unit of OS randomness. -/
def constructTrace : Nat → Nat → List RsaKeyPair
  | 0, _ => []
  | n + 1, seed => generate_rsa_key_pair seed :: constructTrace n (seed + 1)

/-! ## Lemmas: base64 -/

theorem b64value_getD_bounded :
    ∀ m, m < 64 → b64value (b64chars.getD m 'A') = some m := by decide

theorem b64value_b64char (n : Nat) (h : n < 64) : b64value (b64char n) = some n := by
  have h2 : n % 64 = n := Nat.mod_eq_of_lt h
  unfold b64char
  rw [h2]
  exact b64value_getD_bounded n h

theorem b64char_getD_ok : ∀ m, m < 64 →
    (b64chars.contains (b64chars.getD m 'A') || (b64chars.getD m 'A' == '=')) = true := by
  decide

theorem b64char_ok (n : Nat) :
    (b64chars.contains (b64char n) || (b64char n == '=')) = true := by
  unfold b64char
  exact b64char_getD_ok (n % 64) (Nat.mod_lt n (by norm_num))

theorem b64char_getD_ne : ∀ m, m < 64 →
    b64chars.getD m 'A' ≠ '=' ∧ b64chars.getD m 'A' ≠ '.' := by decide

theorem b64char_ne_pad (n : Nat) : b64char n ≠ '=' :=
  (b64char_getD_ne (n % 64) (Nat.mod_lt n (by norm_num))).1

theorem b64char_ne_dot (n : Nat) : b64char n ≠ '.' :=
  (b64char_getD_ne (n % 64) (Nat.mod_lt n (by norm_num))).2

theorem b64encode_chars :
    ∀ l, ∀ c ∈ b64encode l, (b64chars.contains c || (c == '=')) = true := by
  intro l
  induction l using b64encode.induct with
  | case1 => intro c hc; simp [b64encode] at hc
  | case2 a =>
    intro c hc
    simp only [b64encode, List.mem_cons, List.not_mem_nil, or_false] at hc
    rcases hc with rfl | rfl | rfl | rfl <;> first | exact b64char_ok _ | decide
  | case3 a b =>
    intro c hc
    simp only [b64encode, List.mem_cons, List.not_mem_nil, or_false] at hc
    rcases hc with rfl | rfl | rfl | rfl <;> first | exact b64char_ok _ | decide
  | case4 a b cc rest ih =>
    intro c hc
    simp only [b64encode, List.mem_cons] at hc
    rcases hc with rfl | rfl | rfl | rfl | h
    · exact b64char_ok _
    · exact b64char_ok _
    · exact b64char_ok _
    · exact b64char_ok _
    · exact ih c h

theorem b64encode_ne_dot (l : List Nat) : ∀ c ∈ b64encode l, c ≠ '.' := by
  intro c hc heq
  have h := b64encode_chars l c hc
  subst heq
  exact absurd h (by decide)

theorem b64decodeCore_encode :
    ∀ l, (∀ b ∈ l, b < 256) → b64decodeCore (b64encode l) = some l := by
  intro l
  induction l using b64encode.induct with
  | case1 => intro _; rfl
  | case2 a =>
    intro hb
    have ha : a < 256 := hb a (by simp)
    simp only [b64encode, b64decodeCore,
      b64value_b64char (a / 4) (by omega), b64value_b64char (a % 4 * 16) (by omega)]
    simp
    omega
  | case3 a b =>
    intro hb
    have ha : a < 256 := hb a (by simp)
    have hbb : b < 256 := hb b (by simp)
    simp only [b64encode, b64decodeCore,
      b64value_b64char (a / 4) (by omega), b64value_b64char (a % 4 * 16 + b / 16) (by omega),
      b64value_b64char (b % 16 * 4) (by omega)]
    rw [if_neg (b64char_ne_pad _)]
    simp
    constructor <;> omega
  | case4 a b cc rest ih =>
    intro hb
    have ha : a < 256 := hb a (by simp)
    have hbb : b < 256 := hb b (by simp)
    have hcc : cc < 256 := hb cc (by simp)
    have ih2 := ih (fun x hx => hb x (by simp [hx]))
    simp only [b64encode, b64decodeCore,
      b64value_b64char (a / 4) (by omega), b64value_b64char (a % 4 * 16 + b / 16) (by omega),
      b64value_b64char (b % 16 * 4 + cc / 64) (by omega), b64value_b64char (cc % 64) (by omega)]
    rw [if_neg (b64char_ne_pad _), if_neg (b64char_ne_pad _)]
    simp only [ih2, Option.some.injEq, List.cons.injEq]
    refine ⟨by omega, by omega, by omega, trivial⟩

theorem b64decode_encode (l : List Nat) (h : ∀ b ∈ l, b < 256) :
    b64decode (b64encode l) = some l := by
  unfold b64decode
  rw [List.filter_eq_self.mpr (b64encode_chars l)]
  exact b64decodeCore_encode l h

theorem envelope_splitOn (A B : List Char) (hA : ∀ c ∈ A, c ≠ '.') (hB : ∀ c ∈ B, c ≠ '.') :
    (A ++ '.' :: B).splitOn '.' = [A, B] := by
  have h1 : ∀ c ∈ A, ¬((c == '.') = true) := fun c hc => by simp [hA c hc]
  have h2 : ∀ c ∈ B, ¬((c == '.') = true) := fun c hc => by simp [hB c hc]
  show (A ++ '.' :: B).splitOnP (· == '.') = [A, B]
  rw [List.splitOnP_first _ _ h1 '.' (by simp) B, List.splitOnP_eq_single _ _ h2]

/-! ## Lemmas: the modelled AEAD -/

theorem streamMap_length (f : Nat → Nat → Nat) :
    ∀ (l : List Nat) (i : Nat), (streamMap f i l).length = l.length := by
  intro l
  induction l with
  | nil => intro i; rfl
  | cons b rest ih => intro i; simp [streamMap, ih]

theorem streamMap_mod_lt (f : Nat → Nat → Nat) :
    ∀ (l : List Nat) (i : Nat), ∀ b ∈ streamMap (fun j x => f j x % 256) i l, b < 256 := by
  intro l
  induction l with
  | nil => intro i b hb; simp [streamMap] at hb
  | cons x rest ih =>
    intro i b hb
    simp only [streamMap, List.mem_cons] at hb
    rcases hb with rfl | hb
    · exact Nat.mod_lt _ (by norm_num)
    · exact ih (i + 1) b hb

theorem ksByte_lt (k n : List Nat) (i : Nat) : ksByte k n i < 256 :=
  Nat.mod_lt _ (by norm_num)

theorem streamMap_inverse (ks : Nat → Nat) (hks : ∀ j, ks j < 256) :
    ∀ (l : List Nat) (i : Nat), (∀ b ∈ l, b < 256) →
    streamMap (fun j b => (b + 256 - ks j) % 256) i
      (streamMap (fun j b => (b + ks j) % 256) i l) = l := by
  intro l
  induction l with
  | nil => intro i _; rfl
  | cons b rest ih =>
    intro i hb
    simp only [streamMap, List.cons.injEq]
    refine ⟨?_, ih (i + 1) (fun x hx => hb x (by simp [hx]))⟩
    have h1 : b < 256 := hb b (by simp)
    have h2 : ks i < 256 := hks i
    omega

theorem polyTag_length (k n ct : List Nat) : (polyTag k n ct).length = 16 := by
  simp [polyTag]

theorem polyTag_lt (k n ct : List Nat) : ∀ b ∈ polyTag k n ct, b < 256 := by
  intro b hb
  simp only [polyTag, List.mem_map] at hb
  obtain ⟨i, _, rfl⟩ := hb
  exact Nat.mod_lt _ (by norm_num)

theorem chacha_encrypt_bytes (p k n : List Nat) :
    ∀ b ∈ (chacha_encrypt p k n).1, b < 256 := by
  intro b hb
  simp only [chacha_encrypt, List.mem_append] at hb
  rcases hb with hb | hb
  · exact streamMap_mod_lt (fun j x => x + ksByte k n j) p 0 b hb
  · exact polyTag_lt k n _ b hb

theorem chacha_roundtrip (p k n : List Nat) (hk : k.length = 32) (hn : n.length = 12)
    (hp : ∀ b ∈ p, b < 256) :
    chacha_decrypt (chacha_encrypt p k n).1 k n = some p := by
  unfold chacha_encrypt chacha_decrypt
  simp only []
  have hlen : (streamMap (fun i b => (b + ksByte k n i) % 256) 0 p ++
      polyTag k n (streamMap (fun i b => (b + ksByte k n i) % 256) 0 p)).length -
      16 = (streamMap (fun i b => (b + ksByte k n i) % 256) 0 p).length := by
    simp [polyTag_length, List.length_append]
  rw [if_neg (by simp [hk]), if_neg (by simp [hn]),
      if_neg (by simp [List.length_append, polyTag_length])]
  rw [hlen, List.take_left, List.drop_left, if_pos rfl]
  exact congrArg some (streamMap_inverse (ksByte k n) (ksByte_lt k n) p 0 hp)

/-- C1: for every byte string p and every valid 32-byte key k, saving via
encrypt_data (base64(ciphertext) + "." + base64(nonce) at the data path)
and then loading via decrypt_data with decode=False and no schema or
regex returns exactly p. -/
theorem c1_encrypt_decrypt_roundtrip (p k n : List Nat)
    (hp : ∀ b ∈ p, b < 256) (hk : k.length = 32)
    (hn : n.length = 12) (hnb : ∀ b ∈ n, b < 256) :
    decrypt_data k false none none (encrypt_data k n p) =
      (.ok (some (.bytes p)), encrypt_data k n p) := by
  simp only [encrypt_data, decrypt_data, Option.isSome_none, Bool.false_eq_true, and_self,
    false_and, if_false, not_false_iff, or_self, true_and, if_true]
  rw [show (chacha_encrypt p k n).2 = n from rfl]
  rw [envelope_splitOn _ _ (b64encode_ne_dot _) (b64encode_ne_dot _)]
  simp only [b64decode_encode _ (chacha_encrypt_bytes p k n), b64decode_encode n hnb,
    chacha_roundtrip p k n hk hn hp]

/-- Witness for C1 at a concrete plaintext, all-zero key and nonce. -/
theorem c1_encrypt_decrypt_roundtrip_witness :
    (∀ b ∈ [104, 105], b < 256) ∧ (List.replicate 32 0 : List Nat).length = 32 ∧
    (List.replicate 12 0 : List Nat).length = 12 ∧
    (∀ b ∈ List.replicate 12 (0 : Nat), b < 256) ∧
    decrypt_data (List.replicate 32 0) false none none
      (encrypt_data (List.replicate 32 0) (List.replicate 12 0) [104, 105]) =
      (.ok (some (.bytes [104, 105])),
        encrypt_data (List.replicate 32 0) (List.replicate 12 0) [104, 105]) :=
  ⟨by decide, by decide, by decide, by decide,
   c1_encrypt_decrypt_roundtrip [104, 105] (List.replicate 32 0) (List.replicate 12 0)
     (by decide) (by decide) (by decide) (by decide)⟩

/-- C2: every corruption case of decrypt_data — malformed envelope,
base64 failure on either field, authentication failure, regex mismatch,
JSON-decode or schema-validation failure — deletes the backing file and
returns Absent (None) without raising; an absent file yields Absent with
nothing deleted. -/
theorem c2_corrupt_delete (k : List Nat) (decode : Bool) (schema : Option SchemaOracle)
    (regex : Option (List Char → Bool)) (hboth : ¬(schema.isSome ∧ regex.isSome)) :
    (decrypt_data k decode schema regex none = (.ok none, none)) ∧
    (∀ content, (content.splitOn '.').length ≠ 2 →
      decrypt_data k decode schema regex (some content) = (.ok none, none)) ∧
    (∀ content e np, content.splitOn '.' = [e, np] →
      (b64decode e = none ∨ b64decode np = none) →
      decrypt_data k decode schema regex (some content) = (.ok none, none)) ∧
    (∀ content e np ed nn, content.splitOn '.' = [e, np] →
      b64decode e = some ed → b64decode np = some nn →
      chacha_decrypt ed k nn = none →
      decrypt_data k decode schema regex (some content) = (.ok none, none)) ∧
    (∀ content e np ed nn plain s r, content.splitOn '.' = [e, np] →
      b64decode e = some ed → b64decode np = some nn →
      chacha_decrypt ed k nn = some plain → utf8Decode plain = some s →
      regex = some r → r s = false →
      decrypt_data k decode schema regex (some content) = (.ok none, none)) ∧
    (∀ content e np ed nn plain s sc, content.splitOn '.' = [e, np] →
      b64decode e = some ed → b64decode np = some nn →
      chacha_decrypt ed k nn = some plain → utf8Decode plain = some s →
      regex = none → schema = some sc →
      (sc.jsonLoads s = none ∨ ∃ d, sc.jsonLoads s = some d ∧ sc.validate d = false) →
      decrypt_data k decode schema regex (some content) = (.ok none, none)) := by
  refine ⟨?_, ?_, ?_, ?_, ?_, ?_⟩
  · simp [decrypt_data, hboth]
  · intro content hlen
    rcases h : content.splitOn '.' with _ | ⟨a, _ | ⟨b, _ | ⟨c, rest⟩⟩⟩
    · simp [decrypt_data, hboth, h]
    · simp [decrypt_data, hboth, h]
    · simp [h] at hlen
    · simp [decrypt_data, hboth, h]
  · intro content e np h hb
    rcases hb with hb | hb
    · simp [decrypt_data, hboth, h, hb]
    · cases hbe : b64decode e <;> simp [decrypt_data, hboth, h, hb, hbe]
  · intro content e np ed nn h hbe hbn hcd
    simp [decrypt_data, hboth, h, hbe, hbn, hcd]
  · intro content e np ed nn plain s r h hbe hbn hcd hs hr hrs
    subst hr
    cases decode <;>
      simp [decrypt_data, hboth, h, hbe, hbn, hcd, hs, hrs] <;>
      simp at hboth <;> simp [hboth]
  · intro content e np ed nn plain s sc h hbe hbn hcd hs hr hsc hjson
    subst hr; subst hsc
    rcases hjson with hj | ⟨d, hj, hv⟩
    · cases decode <;>
        simp [decrypt_data, decryptSchemaStage, hboth, h, hbe, hbn, hcd, hs, hj]
    · cases decode <;>
        simp [decrypt_data, decryptSchemaStage, hboth, h, hbe, hbn, hcd, hs, hj, hv]

/-- Witness for C2: a file whose content has no dot, an envelope whose
decryption fails authentication, and an absent file, all at the all-zero
key with no schema and no regex. -/
theorem c2_corrupt_delete_witness :
    decrypt_data (List.replicate 32 0) false none none (some ['x']) = (.ok none, none) ∧
    decrypt_data (List.replicate 32 0) false none none
      (some ['A', 'A', 'A', 'A', '.', 'A', 'A', 'A', 'A']) = (.ok none, none) ∧
    decrypt_data (List.replicate 32 0) false none none none = (.ok none, none) :=
  ⟨(c2_corrupt_delete (List.replicate 32 0) false none none (by simp)).2.1 ['x'] (by decide),
   (c2_corrupt_delete (List.replicate 32 0) false none none (by simp)).2.2.2.1
     ['A', 'A', 'A', 'A', '.', 'A', 'A', 'A', 'A'] ['A', 'A', 'A', 'A'] ['A', 'A', 'A', 'A']
     [0, 0, 0] [0, 0, 0] (by decide) (by decide) (by decide) (by decide),
   (c2_corrupt_delete (List.replicate 32 0) false none none (by simp)).1⟩

/-- Any call of decrypt_data either leaves the data file unchanged or
deletes it while returning None (the corruption paths). -/
theorem decrypt_data_state (k : List Nat) (decode : Bool) (schema : Option SchemaOracle)
    (regex : Option (List Char → Bool)) (df : Option (List Char)) :
    (decrypt_data k decode schema regex df).2 = df ∨
    ((decrypt_data k decode schema regex df).1 = .ok none ∧
      (decrypt_data k decode schema regex df).2 = none) := by
  simp only [decrypt_data, decryptSchemaStage]
  repeat' split
  all_goals first
    | (left; rfl)
    | (right; exact ⟨rfl, rfl⟩)

/-- C9: calling decrypt_data twice with the same arguments and no
intervening save returns the same result both times — a valid file yields
the same payload, an absent file yields Absent twice, and a corrupt file
yields Absent (deleting the file) and then Absent again. -/
theorem c9_idempotent_load (k : List Nat) (decode : Bool) (schema : Option SchemaOracle)
    (regex : Option (List Char → Bool)) (df : Option (List Char)) :
    decrypt_data k decode schema regex (decrypt_data k decode schema regex df).2 =
      decrypt_data k decode schema regex df := by
  rcases decrypt_data_state k decode schema regex df with h | ⟨h1, h2⟩
  · rw [h]
  · by_cases hboth : schema.isSome ∧ regex.isSome
    · exfalso
      simp [decrypt_data, hboth] at h1
    · have hd : decrypt_data k decode schema regex df = (Except.ok none, none) := by
        have he := Prod.mk.eta (p := decrypt_data k decode schema regex df)
        rw [← he, h1, h2]
      rw [h2, hd]
      simp [decrypt_data, hboth]

/-- C4: a local secret-key file of exactly 32 bytes is authoritative —
__load_key returns its content untouched for every network oracle and
token state; a file of any other length is ignored and resolution
proceeds (same resolved key, same token-document effect) exactly as if
the file were absent. -/
theorem c4_local_key_file (st : KeyState) (net : LoadKeyNet) (freshKey : List Nat)
    (rsaUnwrap : List Char → List Nat) (sk : List Nat) (hsk : st.secretKeyFile = some sk) :
    (sk.length = 32 → load_key st net freshKey rsaUnwrap = .ok (sk, st)) ∧
    (sk.length ≠ 32 →
      (load_key st net freshKey rsaUnwrap).map (fun p => (p.1, p.2.keyIdTokenFile)) =
        (load_key { st with secretKeyFile := none } net freshKey rsaUnwrap).map
          (fun p => (p.1, p.2.keyIdTokenFile))) := by
  constructor
  · intro h32
    simp [load_key, hsk, h32]
  · intro hne
    obtain ⟨skf, tkf⟩ := st
    simp only [KeyState.secretKeyFile] at hsk
    subst hsk
    simp only [load_key, if_neg hne]
    unfold loadKeyToken
    cases tkf with
    | none => rfl
    | some tf =>
      cases tf with
      | notJson => rfl
      | invalidSchema => rfl
      | token t =>
        cases get_csrf_token net.csrf with
        | error e => rfl
        | ok pr =>
          cases net.prepare with
          | error e2 => rfl
          | ok w =>
            cases net.getKey with
            | error e3 => rfl
            | ok res =>
              by_cases h1 : ¬res.status = 200 ∧ ¬res.status = 404 ∧ ¬res.status = 400
              · simp [h1]
              · by_cases h2 : res.status = 404
                · simp [h1, h2, Except.map]
                · cases hb : res.body with
                  | none => simp [h1, h2, hb]
                  | some j =>
                    by_cases h3 : j.errorField.isSome
                    · simp [h1, h2, hb, h3]
                    · cases hs2 : j.secret_key with
                      | none => simp [h1, h2, hb, h3, hs2]
                      | some s2 =>
                        have h4 : ¬(¬res.status = 200 ∧ ¬res.status = 400) := by tauto
                        simp [h1, h2, hb, h3, hs2, h4, Except.map]

/-- Witness for C4: a 32-byte all-zero key file is returned as-is, and a
31-byte file resolves exactly like an absent file, at a concrete oracle. -/
theorem c4_local_key_file_witness :
    load_key { secretKeyFile := some (List.replicate 32 0), keyIdTokenFile := none } { csrf := .error .connectError, prepare := .error .connectError, getKey := .error .connectError } (generate_chacha20_key 5) (fun _ => []) =
      .ok (List.replicate 32 0, { secretKeyFile := some (List.replicate 32 0), keyIdTokenFile := none }) ∧
    (load_key { secretKeyFile := some (List.replicate 31 0), keyIdTokenFile := none } { csrf := .error .connectError, prepare := .error .connectError, getKey := .error .connectError } (generate_chacha20_key 5) (fun _ => [])).map (fun p => (p.1, p.2.keyIdTokenFile)) =
      (load_key { secretKeyFile := none, keyIdTokenFile := none } { csrf := .error .connectError, prepare := .error .connectError, getKey := .error .connectError } (generate_chacha20_key 5) (fun _ => [])).map (fun p => (p.1, p.2.keyIdTokenFile)) :=
  ⟨(c4_local_key_file _ _ _ _ (List.replicate 32 0) rfl).1 (by decide),
   (c4_local_key_file _ _ _ _ (List.replicate 31 0) rfl).2 (by decide)⟩

/-- C5: with a token document present and the get-key exchange answering
HTTP 404, __load_key deletes the token document, returns the freshly
generated key, and does not raise. -/
theorem c5_stale_token_404 (st : KeyState) (net : LoadKeyNet) (freshKey : List Nat)
    (rsaUnwrap : List Char → List Nat) (t : List Char) (res : HttpResponse)
    (hsk : st.secretKeyFile = none) (htok : st.keyIdTokenFile = some (.token t))
    (hcsrf : ∃ pr, get_csrf_token net.csrf = .ok pr)
    (hprep : ∃ w, net.prepare = .ok w)
    (hres : net.getKey = .ok res) (h404 : res.status = 404) :
    load_key st net freshKey rsaUnwrap =
      .ok (freshKey, { st with keyIdTokenFile := none }) := by
  obtain ⟨pr, hcsrf⟩ := hcsrf
  obtain ⟨w, hprep⟩ := hprep
  simp [load_key, loadKeyToken, hsk, htok, hcsrf, hprep, hres, h404]

/-- Witness for C5 at a concrete stale token and a concrete 404 reply. -/
theorem c5_stale_token_404_witness :
    load_key { secretKeyFile := none, keyIdTokenFile := some (.token ['t']) } { csrf := .ok { status := 200, body := some { errorField := none, csrf_token := some ['c'], secret_key := none, key_id_token := none }, cookies := 0 }, prepare := .ok ['w'], getKey := .ok { status := 404, body := none, cookies := 0 } } (generate_chacha20_key 7) (fun _ => []) =
      .ok (generate_chacha20_key 7, { secretKeyFile := none, keyIdTokenFile := none }) :=
  c5_stale_token_404 _ _ _ _ ['t'] { status := 404, body := none, cookies := 0 }
    rfl rfl ⟨(['c'], 0), rfl⟩ ⟨['w'], rfl⟩ rfl rfl

/-- C6: get_csrf_token treats only HTTP 200 and 404 as non-fatal; any
other status, a JSON error field, or a missing csrf_token field raises
APIServerError, and on success it returns the csrf_token with the
response cookies. -/
theorem c6_get_csrf_token (res : HttpResponse) :
    (res.status ≠ 200 ∧ res.status ≠ 404 →
      get_csrf_token (.ok res) = .error .apiServerError) ∧
    (∀ j m, res.status = 200 ∨ res.status = 404 → res.body = some j →
      j.errorField = some m → get_csrf_token (.ok res) = .error .apiServerError) ∧
    (∀ j, res.status = 200 ∨ res.status = 404 → res.body = some j →
      j.errorField = none → j.csrf_token = none →
      get_csrf_token (.ok res) = .error .apiServerError) ∧
    (∀ j t, res.status = 200 ∨ res.status = 404 → res.body = some j →
      j.errorField = none → j.csrf_token = some t →
      get_csrf_token (.ok res) = .ok (t, res.cookies)) := by
  refine ⟨?_, ?_, ?_, ?_⟩
  · intro h
    simp [get_csrf_token, h]
  · intro j m hs hb he
    rcases hs with hs | hs <;> simp [get_csrf_token, hs, hb, he]
  · intro j hs hb he hc
    rcases hs with hs | hs <;> simp [get_csrf_token, hs, hb, he, hc]
  · intro j t hs hb he hc
    rcases hs with hs | hs <;> simp [get_csrf_token, hs, hb, he, hc]

/-- Witness for C6: a 500 reply is fatal; a 200 reply carrying a
csrf_token succeeds with the cookies. -/
theorem c6_get_csrf_token_witness :
    get_csrf_token (.ok { status := 500, body := none, cookies := 3 }) =
      .error .apiServerError ∧
    get_csrf_token (.ok { status := 200, body := some { errorField := none, csrf_token := some ['c'], secret_key := none, key_id_token := none }, cookies := 3 }) = .ok (['c'], 3) :=
  ⟨(c6_get_csrf_token { status := 500, body := none, cookies := 3 }).1 (by decide),
   (c6_get_csrf_token { status := 200, body := some { errorField := none, csrf_token := some ['c'], secret_key := none, key_id_token := none }, cookies := 3 }).2.2.2 _ ['c'] (Or.inl rfl) rfl rfl rfl⟩

/-- C10: save_key writes nothing when the token document exists (even
with save_locally=True) or when the key file already holds the current
key, and no call ever creates both the raw key file and the token
document. -/
theorem c10_save_key_single_store (st : KeyState) (secretKey : List Nat) (saveLocally : Bool)
    (net : SaveKeyNet) (rsaUnwrapTok : List Char → List Char) :
    (st.keyIdTokenFile.isSome →
      save_key st secretKey saveLocally net rsaUnwrapTok = .ok (st, false, false)) ∧
    (st.secretKeyFile = some secretKey →
      save_key st secretKey saveLocally net rsaUnwrapTok = .ok (st, false, false)) ∧
    (∀ st2 wroteKey wroteToken,
      save_key st secretKey saveLocally net rsaUnwrapTok = .ok (st2, wroteKey, wroteToken) →
      ¬(wroteKey ∧ wroteToken)) := by
  refine ⟨?_, ?_, ?_⟩
  · intro htok
    by_cases hk : st.secretKeyFile = some secretKey
    · simp [save_key, hk]
    · simp [save_key, hk, htok]
  · intro hk
    simp [save_key, hk]
  · intro st2 wroteKey wroteToken h
    by_cases hk : st.secretKeyFile = some secretKey
    · simp [save_key, hk] at h
      rcases h with ⟨h1, h2, h3⟩
      subst h2
      simp
    · by_cases htok : st.keyIdTokenFile.isSome
      · simp [save_key, hk, htok] at h
        rcases h with ⟨h1, h2, h3⟩
        subst h2
        simp
      · by_cases hloc : saveLocally
        · simp [save_key, hk, htok, hloc] at h
          rcases h with ⟨h1, h2, h3⟩
          subst h3
          simp
        · simp only [save_key, if_neg hk, htok, Bool.false_eq_true, if_false, if_neg hloc] at h
          cases hcsrf : get_csrf_token net.csrf with
          | error e => rw [hcsrf] at h; exact absurd h (by simp)
          | ok pr =>
            rw [hcsrf] at h
            cases hprep : net.prepare with
            | error e => rw [hprep] at h; exact absurd h (by simp)
            | ok w =>
              rw [hprep] at h
              cases hres : net.saveKey with
              | error e => rw [hres] at h; exact absurd h (by simp)
              | ok res =>
                rw [hres] at h
                by_cases h1 : res.status ≠ 200 ∧ res.status ≠ 400
                · simp [h1] at h
                · cases hb : res.body with
                  | none => simp [h1, hb] at h
                  | some j =>
                    by_cases h3 : j.errorField.isSome
                    · simp [h1, hb, h3] at h
                    · cases hkt : j.key_id_token with
                      | none => simp [h1, hb, h3, hkt] at h
                      | some kt =>
                        simp [h1, hb, h3, hkt] at h
                        rcases h with ⟨h4, h5, h6⟩
                        subst h5
                        simp

/-- Witness for C10: with an existing token document and
save_locally=True nothing is written; with a fresh state a local save
writes only the key file, and neither flag pair is ever both true. -/
theorem c10_save_key_single_store_witness :
    save_key { secretKeyFile := none, keyIdTokenFile := some (.token ['t']) } [7] true { csrf := .error .connectError, prepare := .error .connectError, saveKey := .error .connectError } (fun c => c) =
      .ok ({ secretKeyFile := none, keyIdTokenFile := some (.token ['t']) }, false, false) ∧
    save_key { secretKeyFile := some [7], keyIdTokenFile := none } [7] false { csrf := .error .connectError, prepare := .error .connectError, saveKey := .error .connectError } (fun c => c) =
      .ok ({ secretKeyFile := some [7], keyIdTokenFile := none }, false, false) ∧
    ¬(true ∧ false) :=
  ⟨(c10_save_key_single_store { secretKeyFile := none, keyIdTokenFile := some (.token ['t']) } [7] true { csrf := .error .connectError, prepare := .error .connectError, saveKey := .error .connectError } (fun c => c)).1 (by decide),
   (c10_save_key_single_store { secretKeyFile := some [7], keyIdTokenFile := none } [7] false { csrf := .error .connectError, prepare := .error .connectError, saveKey := .error .connectError } (fun c => c)).2.1 rfl,
   (c10_save_key_single_store { secretKeyFile := none, keyIdTokenFile := none } [7] true { csrf := .error .connectError, prepare := .error .connectError, saveKey := .error .connectError } (fun c => c)).2.2 { secretKeyFile := some [7], keyIdTokenFile := none } true false rfl⟩

/-- The retry loop makes at most MAX_RETRIES attempts. -/
theorem saveKeyRetryGo_bound (attempts : Nat → Except PyExn Unit) :
    ∀ (fuel counter : Nat), (saveKeyRetryGo attempts counter fuel).2 ≤ counter + fuel - 1 := by
  intro fuel
  induction fuel with
  | zero =>
    intro counter
    show counter - 1 ≤ counter + 0 - 1
    omega
  | succ f ih =>
    intro counter
    simp only [saveKeyRetryGo]
    cases attempts counter with
    | ok u =>
      show counter ≤ counter + (f + 1) - 1
      omega
    | error e =>
      dsimp only
      by_cases hc : retryCaught e
      · by_cases hm : counter = MAX_RETRIES
        · rw [if_pos hc, if_pos hm]
          show counter ≤ counter + (f + 1) - 1
          omega
        · rw [if_pos hc, if_neg hm]
          calc (saveKeyRetryGo attempts (counter + 1) f).2 ≤ counter + 1 + f - 1 := ih (counter + 1)
            _ ≤ counter + (f + 1) - 1 := by omega
      · rw [if_neg hc]
        show counter ≤ counter + (f + 1) - 1
        omega

/-- C3 counterexample: a save_key that raises APIServerError (an HTTP 5xx
surfaced by log_api_error) on every call is attempted MAX_RETRIES = 3
times — not once — and the wrapper returns False instead of re-raising. -/
theorem c3_counterexample :
    save_key_with_retries (fun _ => .error .apiServerError) = (.ok false, 3) ∧
    save_key_with_retries (fun _ => .error .apiServerError) ≠ (.error .apiServerError, 1) ∧
    load_key_with_retries (fun _ => (.error .apiServerError : Except PyExn Unit)) = (.ok none, 3) ∧
    MAX_RETRIES = 3 := by
  refine ⟨rfl, ?_, rfl, rfl⟩
  intro h
  rw [show save_key_with_retries (fun _ => .error .apiServerError) =
        ((.ok false, 3) : Except PyExn Bool × Nat) from rfl] at h
  have h2 := congrArg Prod.snd h
  exact absurd h2 (by norm_num)

/-- C3 amended: save/load attempts are retried (with a fixed delay) up to
MAX_RETRIES times not only on connection and timeout errors but also on
APIServerError and json.JSONDecodeError; exhausting the budget returns
failure (False / None) rather than raising; an exception outside that
tuple propagates immediately after a single attempt; the attempt count
never exceeds MAX_RETRIES. -/
theorem c3_retry_policy :
    (∀ attempts : Nat → Except PyExn Unit,
      (∀ i, 1 ≤ i → i ≤ MAX_RETRIES → ∃ e, attempts i = .error e ∧ retryCaught e = true) →
      save_key_with_retries attempts = (.ok false, MAX_RETRIES)) ∧
    (∀ attempts : Nat → Except PyExn Unit, attempts 1 = .ok () →
      save_key_with_retries attempts = (.ok true, 1)) ∧
    (∀ (attempts : Nat → Except PyExn Unit) e, attempts 1 = .error e → retryCaught e = false →
      save_key_with_retries attempts = (.error e, 1)) ∧
    (∀ attempts : Nat → Except PyExn Unit, (save_key_with_retries attempts).2 ≤ MAX_RETRIES) ∧
    (∀ attempts : Nat → Except PyExn Unit,
      (∀ i, 1 ≤ i → i ≤ MAX_RETRIES → ∃ e, attempts i = .error e ∧ retryCaught e = true) →
      load_key_with_retries attempts = (.ok none, MAX_RETRIES)) ∧
    (∀ (attempts : Nat → Except PyExn Unit) (a : Unit), attempts 1 = .ok a →
      load_key_with_retries attempts = (.ok (some a), 1)) ∧
    (∀ (attempts : Nat → Except PyExn Unit) e, attempts 1 = .error e → retryCaught e = false →
      load_key_with_retries attempts = (.error e, 1)) := by
  refine ⟨?_, ?_, ?_, ?_, ?_, ?_, ?_⟩
  · intro attempts h
    obtain ⟨e1, h1, hc1⟩ := h 1 (by decide) (by decide)
    obtain ⟨e2, h2, hc2⟩ := h 2 (by decide) (by decide)
    obtain ⟨e3, h3, hc3⟩ := h 3 (by decide) (by decide)
    simp [save_key_with_retries, saveKeyRetryGo, MAX_RETRIES, h1, h2, h3, hc1, hc2, hc3]
  · intro attempts h
    simp [save_key_with_retries, saveKeyRetryGo, MAX_RETRIES, h]
  · intro attempts e h hc
    simp [save_key_with_retries, saveKeyRetryGo, MAX_RETRIES, h, hc]
  · intro attempts
    have := saveKeyRetryGo_bound attempts MAX_RETRIES 1
    simp only [save_key_with_retries]
    omega
  · intro attempts h
    obtain ⟨e1, h1, hc1⟩ := h 1 (by decide) (by decide)
    obtain ⟨e2, h2, hc2⟩ := h 2 (by decide) (by decide)
    obtain ⟨e3, h3, hc3⟩ := h 3 (by decide) (by decide)
    simp [load_key_with_retries, loadKeyRetryGo, MAX_RETRIES, h1, h2, h3, hc1, hc2, hc3]
  · intro attempts a h
    simp [load_key_with_retries, loadKeyRetryGo, MAX_RETRIES, h]
  · intro attempts e h hc
    simp [load_key_with_retries, loadKeyRetryGo, MAX_RETRIES, h, hc]

/-- Witness for the amended C3 at concrete attempt oracles. -/
theorem c3_retry_policy_witness :
    save_key_with_retries (fun _ => .error .connectError) = (.ok false, MAX_RETRIES) ∧
    save_key_with_retries (fun _ => .ok ()) = (.ok true, 1) ∧
    save_key_with_retries (fun _ => .error .valueError) = (.error .valueError, 1) :=
  ⟨c3_retry_policy.1 (fun _ => .error .connectError)
      (fun _ _ _ => ⟨.connectError, rfl, rfl⟩),
   c3_retry_policy.2.1 (fun _ => .ok ()) rfl,
   c3_retry_policy.2.2.1 (fun _ => .error .valueError) .valueError rfl rfl⟩

/-- C7 counterexample: with two workers where the first one captured an
exception, save_cookies re-raises at the first join after having joined
only one of the two workers — it does not wait for all workers before
re-raising. -/
theorem c7_counterexample :
    save_cookies [.error .otherError, .ok true] = (.error .otherError, 1) ∧
    ([(.error .otherError : Except PyExn Bool), .ok true]).length = 2 ∧
    (1 : Nat) ≠ 2 :=
  ⟨rfl, rfl, by norm_num⟩

/-- C7 amended: an exception inside a worker is captured in the worker
and re-raised at that worker's join — after that worker completed but
before later workers are joined; when no worker captured an exception
the manager joins all workers and reports each worker's own result; an
escrow HTTP 500 does not set a worker exception at all, because
save_key_with_retries converts the repeated APIServerError into a False
result. -/
theorem c7_batch_join :
    (∀ bs : List Bool, save_cookies (bs.map .ok) = (.ok bs, bs.length)) ∧
    (∀ (pre : List Bool) (e : PyExn) (post : List (Except PyExn Bool)),
      save_cookies (pre.map .ok ++ .error e :: post) = (.error e, pre.length + 1)) ∧
    save_data (fun _ => .ok ()) (fun _ => .error .apiServerError) = .ok false := by
  refine ⟨?_, ?_, rfl⟩
  · intro bs
    induction bs with
    | nil => rfl
    | cons b rest ih =>
      simp only [save_cookies, List.map_map] at ih
      simp only [save_cookies, List.map_cons, List.map_map, joinAll, runWorker, ih]
      simp
  · intro pre e post
    induction pre with
    | nil => rfl
    | cons b rest ih =>
      simp only [save_cookies, List.map_map] at ih
      simp only [save_cookies, List.map_cons, List.map_map, List.cons_append, List.append_eq,
        joinAll, runWorker, ih]
      simp

/-- Witness for the amended C7: the spec scenario — three workers where
only the middle one failed (HTTP 500 converted to a False result) —
reports success, failure, success with all three joined; a prefix of one
successful worker before an exception yields that exception after two
joins. -/
theorem c7_batch_join_witness :
    save_cookies [.ok true, .ok false, .ok true] = (.ok [true, false, true], 3) ∧
    save_cookies ([true].map .ok ++ .error .otherError :: [.ok true]) =
      (.error .otherError, 2) :=
  ⟨c7_batch_join.1 [true, false, true],
   c7_batch_join.2.1 [true] .otherError [.ok true]⟩

/-- Every key pair in a construction trace comes from one randomness
seed at or after the start seed. -/
theorem constructTrace_mem :
    ∀ (n s : Nat) (p : RsaKeyPair), p ∈ constructTrace n s →
      ∃ j, s ≤ j ∧ p = generate_rsa_key_pair j := by
  intro n
  induction n with
  | zero => intro s p hp; simp [constructTrace] at hp
  | succ m ih =>
    intro s p hp
    simp only [constructTrace, List.mem_cons] at hp
    rcases hp with rfl | hp
    · exact ⟨s, le_refl s, rfl⟩
    · obtain ⟨j, hj, hpj⟩ := ih (s + 1) p hp
      exact ⟨j, by omega, hpj⟩

/-- C8 counterexample: a process execution that constructs two UserData
instances (as save_cookies does with two websites, or load_key_with_retries
does across retries) performs two RSA key-pair generations producing two
distinct pairs — not exactly one per process. -/
theorem c8_counterexample :
    (constructTrace 2 0).length = 2 ∧ (2 : Nat) ≠ 1 ∧
    generate_rsa_key_pair 0 ≠ generate_rsa_key_pair 1 :=
  ⟨rfl, by norm_num, by decide⟩

/-- C8 amended: one ephemeral RSA transport key pair is generated per
UserData construction, not per process execution: a process constructing
n instances generates n pairwise-distinct pairs, each held in that
instance's fields. -/
theorem c8_keypair_per_construction (n s : Nat) :
    (constructTrace n s).length = n ∧ (constructTrace n s).Pairwise (· ≠ ·) := by
  constructor
  · induction n generalizing s with
    | zero => rfl
    | succ m ih => simp [constructTrace, ih]
  · induction n generalizing s with
    | zero => exact List.Pairwise.nil
    | succ m ih =>
      refine List.Pairwise.cons ?_ (ih (s + 1))
      intro p hp
      obtain ⟨j, hj, rfl⟩ := constructTrace_mem m (s + 1) p hp
      intro heq
      have := congrArg RsaKeyPair.privatePem heq
      simp [generate_rsa_key_pair] at this
      omega

end CulturedDL
